import Mathlib

/-!
# ItemReminderIOT: the MQTT configuration header `mqtt_config.h`

The repository slice is one C/C++ header made of preprocessor definitions.
The development embeds it twice and relates the two embeddings:

* `headerLines` is the text of the header, line by line, and `preprocess`
  is a small model of the preprocessor directives the header uses
  (`#ifndef`, `#define`, `#endif`, `//` comments);
* `MQTT_BROKER`, `MQTT_PORT`, ... are the object-like definitions of the
  header as typed Lean constants.

Every property below is stated on the constants and, where it matters, on
the table of definitions computed from the header text.
-/

namespace MqttConfig

/-! ## The header text -/

/-- The 28 lines of `src/mqtt_config.h`, verbatim, in order. -/
def headerLines : List String :=
  [ "// MQTT Configuration for ItemReminderIOT",
    "// HiveMQ Cloud MQTT Broker Configuration",
    "",
    "#ifndef MQTT_CONFIG_H",
    "#define MQTT_CONFIG_H",
    "",
    "// MQTT Broker Details",
    "#define MQTT_BROKER \"85e1b192f896482fa682320d8d591396.s1.eu.hivemq.cloud\"",
    "#define MQTT_PORT 8883",
    "#define MQTT_WEBSOCKET_PORT 8884",
    "",
    "// TLS/SSL Connection",
    "#define MQTT_USE_TLS true",
    "",
    "// Connection URLs",
    "// For standard MQTT over TLS: 85e1b192f896482fa682320d8d591396.s1.eu.hivemq.cloud:8883",
    "// For WebSocket over TLS: 85e1b192f896482fa682320d8d591396.s1.eu.hivemq.cloud:8884/mqtt",
    "",
    "// TODO: Add your MQTT credentials here",
    "// #define MQTT_USERNAME \"your_username\"",
    "// #define MQTT_PASSWORD \"your_password\"",
    "",
    "// Topic Configuration",
    "#define MQTT_TOPIC_REMINDER \"itemreminder/notification\"",
    "#define MQTT_TOPIC_STATUS \"itemreminder/status\"",
    "#define MQTT_TOPIC_COMMAND \"itemreminder/command\"",
    "",
    "#endif // MQTT_CONFIG_H" ]

/-! ## The typed constants (one per `#define` of a value) -/

/-- Header line 8: `#define MQTT_BROKER "..."`. -/
def MQTT_BROKER : String := "85e1b192f896482fa682320d8d591396.s1.eu.hivemq.cloud"

/-- Header line 9: `#define MQTT_PORT 8883` (a C `int` literal). -/
def MQTT_PORT : Int := 8883

/-- Header line 10: `#define MQTT_WEBSOCKET_PORT 8884` (a C `int` literal). -/
def MQTT_WEBSOCKET_PORT : Int := 8884

/-- Header line 13: `#define MQTT_USE_TLS true`. -/
def MQTT_USE_TLS : Bool := true

/-- Header line 24: `#define MQTT_TOPIC_REMINDER "itemreminder/notification"`. -/
def MQTT_TOPIC_REMINDER : String := "itemreminder/notification"

/-- Header line 25: `#define MQTT_TOPIC_STATUS "itemreminder/status"`. -/
def MQTT_TOPIC_STATUS : String := "itemreminder/status"

/-- Header line 26: `#define MQTT_TOPIC_COMMAND "itemreminder/command"`. -/
def MQTT_TOPIC_COMMAND : String := "itemreminder/command"

/-- The three topic constants, in header order. -/
def topics : List String :=
  [MQTT_TOPIC_REMINDER, MQTT_TOPIC_STATUS, MQTT_TOPIC_COMMAND]

/-! ## A model of the preprocessor directives the header uses -/

/-- The double quote character. -/
def dquote : Char := Char.ofNat 34

/-- The backslash character. -/
def bslash : Char := Char.ofNat 92

/-- Blank characters inside a line. -/
def isBlank (c : Char) : Bool := c = ' ' || c = '\t'

/-- Characters of a C identifier. -/
def isIdentChar (c : Char) : Bool := c.isAlphanum || c = '_'

/-- Cuts a line at the first `//` that is outside a string literal. The flag
says whether the scan is inside a string literal; inside one a backslash
protects the next character. -/
def stripLineComment : Bool → List Char → List Char
  | _, [] => []
  | _, [c] => [c]
  | inStr, c :: d :: cs =>
    if inStr then
      if c = bslash then c :: d :: stripLineComment true cs
      else if c = dquote then c :: stripLineComment false (d :: cs)
      else c :: stripLineComment true (d :: cs)
    else
      if c = '/' && d = '/' then []
      else if c = dquote then c :: stripLineComment true (d :: cs)
      else c :: stripLineComment false (d :: cs)

/-- Drops leading blanks. -/
def dropBlanks : List Char → List Char
  | [] => []
  | c :: cs => if isBlank c then dropBlanks cs else c :: cs

/-- Drops leading and trailing blanks. -/
def trimBlanks (l : List Char) : List Char :=
  (dropBlanks (dropBlanks l).reverse).reverse

/-- Splits off the longest leading run of identifier characters. -/
def spanIdent : List Char → List Char × List Char
  | [] => ([], [])
  | c :: cs =>
    if isIdentChar c then ((spanIdent cs).1.cons c, (spanIdent cs).2)
    else ([], c :: cs)

/-- What one line of the header is to the preprocessor. -/
inductive Directive where
  | define (name : String) (body : String)
  | ifndef (name : String)
  | endif
  | other
  deriving DecidableEq, Repr

/-- Classifies one line: comment removed, then `#`, the directive name, the
name it applies to and, for `#define`, the replacement text. -/
def parseLine (line : String) : Directive :=
  match dropBlanks (stripLineComment false line.data) with
  | '#' :: rest =>
    let d := spanIdent (dropBlanks rest)
    let n := spanIdent (dropBlanks d.2)
    if d.1 = "define".data then
      if n.1 = [] then .other else .define (String.mk n.1) (String.mk (trimBlanks n.2))
    else if d.1 = "ifndef".data then
      if n.1 = [] then .other else .ifndef (String.mk n.1)
    else if d.1 = "endif".data then .endif
    else .other
  | _ => .other

/-- Preprocessor state: the definitions made so far, oldest first, and one
flag per open conditional group telling whether the group is taken. -/
structure PPState where
  defs : List (String × String)
  groups : List Bool
  deriving DecidableEq, Repr

/-- The state before any line is read, given the names already defined. -/
def PPState.init (defs : List (String × String)) : PPState := ⟨defs, []⟩

/-- Replacement text of a name, if the name is defined. -/
def lookupDef (defs : List (String × String)) (name : String) : Option String :=
  defs.lookup name

/-- Whether a name is defined. -/
def isDefined (defs : List (String × String)) (name : String) : Bool :=
  (lookupDef defs name).isSome

/-- Processes one line. A `#define` in a skipped group has no effect; a
repeated `#define` replaces the earlier one. -/
def step (st : PPState) (line : String) : PPState :=
  match parseLine line with
  | .ifndef n => { st with groups := (st.groups.all id && !isDefined st.defs n) :: st.groups }
  | .endif => { st with groups := st.groups.tail }
  | .define n b =>
    if st.groups.all id then
      { st with defs := st.defs.filter (fun p => p.1 ≠ n) ++ [(n, b)] }
    else st
  | .other => st

/-- Processes a list of lines from a given state. -/
def preprocess (st : PPState) (lines : List String) : PPState :=
  lines.foldl step st

/-- The definitions in force after the header is included once into an
empty environment. -/
def headerDefs : List (String × String) :=
  (preprocess (PPState.init []) headerLines).defs

/-! ## Reading the replacement text as a C literal -/

/-- Value of a string literal without escape sequences: the text between an
opening and a closing double quote. -/
def stringLiteral? (body : String) : Option String :=
  match body.data with
  | [] => none
  | q :: rest =>
    if q = dquote ∧ rest.getLast? = some dquote
        ∧ rest.dropLast.all (fun c => c != dquote && c != bslash) = true then
      some (String.mk rest.dropLast)
    else none

/-- Value of a decimal digit. -/
def digitValue (c : Char) : Nat := c.toNat - 48

/-- Value of a decimal integer literal: digits only, no leading zero (a leading
zero would make the literal octal) unless the literal is `0`. -/
def intLiteral? (body : String) : Option Int :=
  match body.data with
  | [] => none
  | c :: cs =>
    if (c :: cs).all Char.isDigit = true ∧ (c ≠ '0' ∨ cs = []) then
      some (Int.ofNat ((c :: cs).foldl (fun acc d => 10 * acc + digitValue d) 0))
    else none

/-- Value of a boolean literal. -/
def boolLiteral? (body : String) : Option Bool :=
  if body = "true" then some true
  else if body = "false" then some false
  else none

/-! ## Text helpers used to state the properties -/

/-- Splits a character list at every occurrence of the separator; the result
always has one more piece than there are separators. -/
def splitOnChar (sep : Char) : List Char → List (List Char)
  | [] => [[]]
  | c :: cs =>
    if c = sep then [] :: splitOnChar sep cs
    else
      match splitOnChar sep cs with
      | [] => [[c]]
      | seg :: rest => (c :: seg) :: rest

/-- Whether the first list occurs as a contiguous block of the second. -/
def containsSub (sub l : List Char) : Bool :=
  l.tails.any (fun t => sub.isPrefixOf t)

/-- A label of a host name: 1 to 63 characters, only ASCII letters, digits and
the hyphen, the hyphen neither first nor last. -/
def ValidLabel (l : List Char) : Prop :=
  l ≠ [] ∧ l.length ≤ 63
  ∧ (∀ c ∈ l, c.isAlpha = true ∨ c.isDigit = true ∨ c = '-')
  ∧ l.head? ≠ some '-' ∧ l.getLast? ≠ some '-'

/-- A syntactically valid DNS host name: 1 to 253 characters, and split on the
dot every label is valid. -/
def ValidHostName (h : String) : Prop :=
  h.data ≠ [] ∧ h.data.length ≤ 253 ∧ ∀ l ∈ splitOnChar '.' h.data, ValidLabel l

/-- The hierarchical topic-naming convention: split on the slash, the topic has
at least two segments and no empty one; spelled out, it neither starts nor ends
with a slash and never has two slashes in a row. -/
def HierarchicalTopic (t : String) : Prop :=
  2 ≤ (splitOnChar '/' t.data).length
  ∧ (∀ seg ∈ splitOnChar '/' t.data, seg ≠ [])
  ∧ t.data.head? ≠ some '/'
  ∧ t.data.getLast? ≠ some '/'
  ∧ ¬ (['/', '/'] <:+: t.data)

/-! ## The settings record of the specification -/

/-- Modelled from the spec: the "Broker Connection Settings" entity of the data
model (section 3), which the header itself does not declare. The two
credentials are optional, every other field is required. -/
structure BrokerConnectionSettings where
  brokerHost : String
  brokerPort : Int
  websocketPort : Int
  useTLS : Bool
  username : Option String
  password : Option String
  topicReminder : String
  topicStatus : String
  topicCommand : String
  deriving DecidableEq, Repr

/-- Modelled from the spec: building the settings record from a table of
preprocessor definitions (the consumer of the header is not part of the
sources). A missing or ill-typed required definition makes the build fail; a
missing credential leaves its field empty. -/
def loadSettings (defs : List (String × String)) : Option BrokerConnectionSettings := do
  let host ← (lookupDef defs "MQTT_BROKER").bind stringLiteral?
  let port ← (lookupDef defs "MQTT_PORT").bind intLiteral?
  let wsPort ← (lookupDef defs "MQTT_WEBSOCKET_PORT").bind intLiteral?
  let tls ← (lookupDef defs "MQTT_USE_TLS").bind boolLiteral?
  let reminder ← (lookupDef defs "MQTT_TOPIC_REMINDER").bind stringLiteral?
  let status ← (lookupDef defs "MQTT_TOPIC_STATUS").bind stringLiteral?
  let command ← (lookupDef defs "MQTT_TOPIC_COMMAND").bind stringLiteral?
  pure
    { brokerHost := host
      brokerPort := port
      websocketPort := wsPort
      useTLS := tls
      username := (lookupDef defs "MQTT_USERNAME").bind stringLiteral?
      password := (lookupDef defs "MQTT_PASSWORD").bind stringLiteral?
      topicReminder := reminder
      topicStatus := status
      topicCommand := command }


/-! ## Facts about the helpers -/

theorem splitOnChar_ne_nil (sep : Char) (l : List Char) : splitOnChar sep l ≠ [] := by
  cases l with
  | nil => simp [splitOnChar]
  | cons c cs =>
    unfold splitOnChar
    split_ifs
    · simp
    · split <;> simp

/-- Joining the pieces with the separator gives the text back. -/
theorem splitOnChar_intercalate (sep : Char) (l : List Char) :
    [sep].intercalate (splitOnChar sep l) = l := by
  induction l with
  | nil => simp [splitOnChar, List.intercalate]
  | cons c cs ih =>
    unfold splitOnChar
    split_ifs with h
    · have hne := splitOnChar_ne_nil sep cs
      cases hs : splitOnChar sep cs with
      | nil => exact absurd hs hne
      | cons seg rest =>
        rw [hs] at ih
        subst h
        simp only [List.intercalate, List.intersperse_cons_cons, List.flatten_cons,
          List.nil_append, List.singleton_append] at ih ⊢
        rw [ih]
    · cases hs : splitOnChar sep cs with
      | nil => exact absurd hs (splitOnChar_ne_nil sep cs)
      | cons seg rest =>
        rw [hs] at ih
        cases rest with
        | nil =>
          simp only [List.intercalate, List.intersperse_single, List.flatten_cons, List.flatten_nil,
            List.append_nil] at ih ⊢
          rw [ih]
        | cons r rs =>
          simp only [List.intercalate, List.intersperse_cons_cons, List.flatten_cons,
            List.cons_append] at ih ⊢
          rw [ih]

/-- No piece contains the separator. -/
theorem splitOnChar_not_mem (sep : Char) (l : List Char) :
    ∀ seg ∈ splitOnChar sep l, sep ∉ seg := by
  induction l with
  | nil => simp [splitOnChar]
  | cons c cs ih =>
    unfold splitOnChar
    split_ifs with h
    · intro seg hseg
      rcases List.mem_cons.1 hseg with rfl | hmem
      · simp
      · exact ih seg hmem
    · cases hs : splitOnChar sep cs with
      | nil => exact absurd hs (splitOnChar_ne_nil sep cs)
      | cons seg rest =>
        rw [hs] at ih
        intro s hsmem
        rcases List.mem_cons.1 hsmem with rfl | hmem
        · intro hin
          rcases List.mem_cons.1 hin with heq | hin2
          · exact h heq.symm
          · exact ih seg (List.mem_cons_self _ _) hin2
        · exact ih s (List.mem_cons_of_mem _ hmem)


/-- The include guard works: including the header a second time changes
nothing and leaves no conditional group open. -/
theorem include_twice_is_include_once :
    preprocess (preprocess (PPState.init []) headerLines) headerLines
      = preprocess (PPState.init []) headerLines
    ∧ (preprocess (PPState.init []) headerLines).groups = [] := by
  decide

/-- The loader fails when the required definitions are missing. -/
theorem loadSettings_empty : loadSettings [] = none := by
  decide

/-- The loader reads credentials once they are defined. -/
theorem loadSettings_reads_credentials :
    (loadSettings (headerDefs ++ [("MQTT_USERNAME", "\"u\""), ("MQTT_PASSWORD", "\"p\"")])).map
        (fun s => (s.username, s.password))
      = some (some "u", some "p") := by
  decide

/-! ## The claims -/

/-- C1: each of the seven configuration constants has the value the
specification lists (string equality for the host and the topics, integer
equality for the ports, boolean equality for the TLS flag); the table of
definitions computed from the header text holds the same seven values, read as
C literals, after the include guard. -/
theorem constants_have_listed_values :
    MQTT_BROKER = "85e1b192f896482fa682320d8d591396.s1.eu.hivemq.cloud"
    ∧ MQTT_PORT = 8883
    ∧ MQTT_WEBSOCKET_PORT = 8884
    ∧ MQTT_USE_TLS = true
    ∧ MQTT_TOPIC_REMINDER = "itemreminder/notification"
    ∧ MQTT_TOPIC_STATUS = "itemreminder/status"
    ∧ MQTT_TOPIC_COMMAND = "itemreminder/command"
    ∧ headerDefs.map Prod.fst =
        ["MQTT_CONFIG_H", "MQTT_BROKER", "MQTT_PORT", "MQTT_WEBSOCKET_PORT", "MQTT_USE_TLS",
          "MQTT_TOPIC_REMINDER", "MQTT_TOPIC_STATUS", "MQTT_TOPIC_COMMAND"]
    ∧ (lookupDef headerDefs "MQTT_BROKER").bind stringLiteral? = some MQTT_BROKER
    ∧ (lookupDef headerDefs "MQTT_PORT").bind intLiteral? = some MQTT_PORT
    ∧ (lookupDef headerDefs "MQTT_WEBSOCKET_PORT").bind intLiteral? = some MQTT_WEBSOCKET_PORT
    ∧ (lookupDef headerDefs "MQTT_USE_TLS").bind boolLiteral? = some MQTT_USE_TLS
    ∧ (lookupDef headerDefs "MQTT_TOPIC_REMINDER").bind stringLiteral? = some MQTT_TOPIC_REMINDER
    ∧ (lookupDef headerDefs "MQTT_TOPIC_STATUS").bind stringLiteral? = some MQTT_TOPIC_STATUS
    ∧ (lookupDef headerDefs "MQTT_TOPIC_COMMAND").bind stringLiteral? = some MQTT_TOPIC_COMMAND := by
  decide

/-- C2: both port constants are valid TCP port numbers, between 1 and 65535;
each is non-zero and is unchanged by reduction modulo 2^16, so it fits an
unsigned 16-bit integer without wrap-around. -/
theorem ports_are_valid_tcp_ports :
    (1 ≤ MQTT_PORT ∧ MQTT_PORT ≤ 65535)
    ∧ (1 ≤ MQTT_WEBSOCKET_PORT ∧ MQTT_WEBSOCKET_PORT ≤ 65535)
    ∧ MQTT_PORT ≠ 0 ∧ MQTT_WEBSOCKET_PORT ≠ 0
    ∧ MQTT_PORT % 2 ^ 16 = MQTT_PORT
    ∧ MQTT_WEBSOCKET_PORT % 2 ^ 16 = MQTT_WEBSOCKET_PORT := by
  decide

/-- C3: each of the three topic strings is non-empty and has no space, tab,
carriage return or line feed at any position. -/
theorem topics_nonempty_without_whitespace :
    (MQTT_TOPIC_REMINDER ≠ "" ∧ MQTT_TOPIC_STATUS ≠ "" ∧ MQTT_TOPIC_COMMAND ≠ "")
    ∧ (0 < MQTT_TOPIC_REMINDER.length ∧ 0 < MQTT_TOPIC_STATUS.length
        ∧ 0 < MQTT_TOPIC_COMMAND.length)
    ∧ (∀ c ∈ MQTT_TOPIC_REMINDER.data, c ≠ ' ' ∧ c ≠ '\t' ∧ c ≠ '\r' ∧ c ≠ '\n')
    ∧ (∀ c ∈ MQTT_TOPIC_STATUS.data, c ≠ ' ' ∧ c ≠ '\t' ∧ c ≠ '\r' ∧ c ≠ '\n')
    ∧ (∀ c ∈ MQTT_TOPIC_COMMAND.data, c ≠ ' ' ∧ c ≠ '\t' ∧ c ≠ '\r' ∧ c ≠ '\n') := by
  decide

/-- C4: split on the slash, every topic gives at least two segments, all of
them non-empty; no topic starts with a slash, ends with a slash or contains two
slashes in a row; and for the three topics the split gives exactly two
segments, the first being "itemreminder". -/
theorem topics_are_hierarchical :
    (HierarchicalTopic MQTT_TOPIC_REMINDER ∧ HierarchicalTopic MQTT_TOPIC_STATUS
        ∧ HierarchicalTopic MQTT_TOPIC_COMMAND)
    ∧ (splitOnChar '/' MQTT_TOPIC_REMINDER.data).map String.mk
        = ["itemreminder", "notification"]
    ∧ (splitOnChar '/' MQTT_TOPIC_STATUS.data).map String.mk = ["itemreminder", "status"]
    ∧ (splitOnChar '/' MQTT_TOPIC_COMMAND.data).map String.mk = ["itemreminder", "command"] := by
  simp only [HierarchicalTopic]
  decide


/-- C5: the header leaves the credentials absent. `MQTT_USERNAME` and
`MQTT_PASSWORD` occur in the header text but in no line once comments are
removed, and neither is defined after preprocessing; building the settings
record from the header succeeds, with both optional credential fields empty and
the host, both ports, the TLS flag and the three topics present. -/
theorem credentials_absent_settings_load :
    (isDefined headerDefs "MQTT_USERNAME" = false ∧ isDefined headerDefs "MQTT_PASSWORD" = false)
    ∧ (headerLines.any (fun l => containsSub "MQTT_USERNAME".data l.data) = true
        ∧ headerLines.any (fun l => containsSub "MQTT_PASSWORD".data l.data) = true)
    ∧ (headerLines.any
          (fun l => containsSub "MQTT_USERNAME".data (stripLineComment false l.data)) = false
        ∧ headerLines.any
          (fun l => containsSub "MQTT_PASSWORD".data (stripLineComment false l.data)) = false)
    ∧ loadSettings headerDefs = some
        { brokerHost := MQTT_BROKER
          brokerPort := MQTT_PORT
          websocketPort := MQTT_WEBSOCKET_PORT
          useTLS := MQTT_USE_TLS
          username := none
          password := none
          topicReminder := MQTT_TOPIC_REMINDER
          topicStatus := MQTT_TOPIC_STATUS
          topicCommand := MQTT_TOPIC_COMMAND } := by
  decide

/-- C6: the connection URLs written in the header comments agree with the
constants: host, colon and the decimal port give the documented MQTT over TLS
endpoint; host, colon, the decimal WebSocket port and "/mqtt" give the
documented WebSocket over TLS endpoint; header lines 16 and 17 are these two
endpoints after their captions. -/
theorem documented_urls_agree_with_constants :
    MQTT_BROKER ++ ":" ++ toString MQTT_PORT = "85e1b192f896482fa682320d8d591396.s1.eu.hivemq.cloud:8883"
    ∧ MQTT_BROKER ++ ":" ++ toString MQTT_WEBSOCKET_PORT ++ "/mqtt" = "85e1b192f896482fa682320d8d591396.s1.eu.hivemq.cloud:8884/mqtt"
    ∧ headerLines[15]? = some
        ("// For standard MQTT over TLS: " ++ (MQTT_BROKER ++ ":" ++ toString MQTT_PORT))
    ∧ headerLines[16]? = some
        ("// For WebSocket over TLS: "
          ++ (MQTT_BROKER ++ ":" ++ toString MQTT_WEBSOCKET_PORT ++ "/mqtt")) := by
  decide

/-- C7: the broker constant is a syntactically valid DNS host name: non-empty,
at most 253 characters, every dot-separated label non-empty, at most 63
characters, made of ASCII letters, digits and hyphens, with no hyphen first or
last; it has no scheme prefix, no colon, no slash and no whitespace. -/
theorem broker_is_valid_host_name :
    ValidHostName MQTT_BROKER
    ∧ (splitOnChar '.' MQTT_BROKER.data).map String.mk
        = ["85e1b192f896482fa682320d8d591396", "s1", "eu", "hivemq", "cloud"]
    ∧ ¬ ([':', '/', '/'] <:+: MQTT_BROKER.data)
    ∧ ':' ∉ MQTT_BROKER.data
    ∧ '/' ∉ MQTT_BROKER.data
    ∧ (∀ c ∈ MQTT_BROKER.data, c ≠ ' ' ∧ c ≠ '\t' ∧ c ≠ '\r' ∧ c ≠ '\n') := by
  simp only [ValidHostName, ValidLabel]
  decide

/-- C8: the three topic constants are pairwise distinct and none of them is a
prefix of another. -/
theorem topics_distinct_and_prefix_free :
    (MQTT_TOPIC_REMINDER ≠ MQTT_TOPIC_STATUS ∧ MQTT_TOPIC_REMINDER ≠ MQTT_TOPIC_COMMAND
        ∧ MQTT_TOPIC_STATUS ≠ MQTT_TOPIC_COMMAND)
    ∧ ¬ (MQTT_TOPIC_REMINDER.data <+: MQTT_TOPIC_STATUS.data)
    ∧ ¬ (MQTT_TOPIC_REMINDER.data <+: MQTT_TOPIC_COMMAND.data)
    ∧ ¬ (MQTT_TOPIC_STATUS.data <+: MQTT_TOPIC_REMINDER.data)
    ∧ ¬ (MQTT_TOPIC_STATUS.data <+: MQTT_TOPIC_COMMAND.data)
    ∧ ¬ (MQTT_TOPIC_COMMAND.data <+: MQTT_TOPIC_REMINDER.data)
    ∧ ¬ (MQTT_TOPIC_COMMAND.data <+: MQTT_TOPIC_STATUS.data)
    ∧ topics.Nodup := by
  decide

/-- C9: each of the three topic constants is a concrete topic name usable for
publishing: no plus sign, no hash sign, no leading dollar sign, no NUL. -/
theorem topics_are_publishable_names :
    ('+' ∉ MQTT_TOPIC_REMINDER.data ∧ '#' ∉ MQTT_TOPIC_REMINDER.data
        ∧ MQTT_TOPIC_REMINDER.data.head? ≠ some '$'
        ∧ Char.ofNat 0 ∉ MQTT_TOPIC_REMINDER.data)
    ∧ ('+' ∉ MQTT_TOPIC_STATUS.data ∧ '#' ∉ MQTT_TOPIC_STATUS.data
        ∧ MQTT_TOPIC_STATUS.data.head? ≠ some '$'
        ∧ Char.ofNat 0 ∉ MQTT_TOPIC_STATUS.data)
    ∧ ('+' ∉ MQTT_TOPIC_COMMAND.data ∧ '#' ∉ MQTT_TOPIC_COMMAND.data
        ∧ MQTT_TOPIC_COMMAND.data.head? ≠ some '$'
        ∧ Char.ofNat 0 ∉ MQTT_TOPIC_COMMAND.data) := by
  decide

end MqttConfig
